import Mathlib

/-!
Verification of the transaction preparation and broadcast pipeline of the
Electrum-BSV main window (`electrumsv/gui/qt/main_window.py`).

The Python code is shallowly embedded: the state the pipeline touches is made
explicit (send-tab fields, the attached payment request, the account's
transaction table), external collaborators (`AbstractAccount`,
`Network`, the payee endpoint) are represented by their observable results, and
each orchestration function (`get_coins`, `read_send_tab`, `do_update_fee`,
`do_send`, `broadcast_transaction`, `cpfp`) becomes an executable Lean
function over that state.
-/

namespace ElectrumBSV

/-! ### Data model -/

/-- A spendable coin as the window sees it (`UTXO`): owning key reference,
originating transaction hash, output index, value in satoshis, frozen flag. -/
structure UTXO where
  keyRef : Nat
  txHash : Nat
  outIndex : Nat
  value : Nat
  frozen : Bool
deriving DecidableEq, Repr

/-- The value slot of an `XTxOutput`: either a concrete satoshi amount, or the
`all` sentinel used by maximum-send mode (`XTxOutput(amount, script)` where
`amount` is the builtin `all` when `is_max`). -/
inductive XValue where
  | amount (v : Int)
  | maxAll
deriving DecidableEq, Repr

/-- A transaction output template: an optional value (Python `None` models an
unresolved amount) paired with an output script, kept opaque as a number. -/
structure XTxOutput where
  value : Option XValue
  script : Nat
deriving DecidableEq, Repr

/-- The slice of `SimpleConfig` the pipeline reads: the fee/kB rate used by
`cpfp`, the maximum fee rate, and the frozen-coin exclusion setting the engine
consults when the window passes the config through. -/
structure Config where
  feePerKB : ℚ
  maxFeeRate : ℚ
  excludeFrozen : Bool
deriving DecidableEq

/-- The observable face of a `Transaction` object at the call sites the window
uses: `txid()`, `hash()`, `is_complete()`, `output_value()`, `get_fee()`,
`estimated_size()`, `str(tx)`. -/
structure Tx where
  txid : String
  hash : Nat
  isComplete : Bool
  outputValue : Int
  fee : Int
  estimatedSize : Nat
  raw : String
deriving DecidableEq, Repr

/-- A BIP270-style payment request as the broadcast code observes it:
`has_expired()`, `get_outputs()`, and the `(ack_status, ack_msg)` pair that
`send_payment` returns for the signed transaction. -/
structure PaymentRequest where
  hasExpired : Bool
  outputs : List XTxOutput
  ackStatus : Bool
  ackMsg : String
deriving DecidableEq, Repr

/-- The classified failures `make_unsigned_transaction` can raise at the
window's call sites. -/
inductive BuildError where
  | notEnoughFunds
  | excessiveFee
  | other (msg : String)
deriving DecidableEq, Repr

/-- The slice of `AbstractAccount` (plus its invoice store) the pipeline
reads and writes: `have_transaction`, the per-transaction state flags set by
`set_transaction_state`, the labels set by `set_transaction_label`, the
invoices marked paid, and `get_spendable_coins(None, config, isInvoice)`. -/
structure Account where
  haveTransaction : Nat → Bool
  txState : Nat → Option Nat
  txLabels : Nat → Option String
  invoicesPaid : List String
  invoicesSaved : Bool
  spendableCoins : Config → Bool → List UTXO

/-- Modelled from the spec: `TxFlags.StateDispatched` lives in
`electrumsv.constants`, which is not part of this repository slice; the spec
describes it as the "dispatched" state bit. Its concrete value is irrelevant
to every claim below. -/
def TxFlags.StateDispatched : Nat := 2 ^ 20

/-- Modelled from the spec: `TxFlags.HasByteData` lives in
`electrumsv.constants`; the spec describes it as the "byte-data available"
bit, distinct from the dispatched bit. -/
def TxFlags.HasByteData : Nat := 2 ^ 12

/-! ### Coin selection (`get_coins`, main_window.py:1960) -/

/-- `get_coins(account, isInvoice)`: if `self.pay_from` is non-empty (the user
pinned specific coins) return it, otherwise ask the account for
`get_spendable_coins(None, self.config, isInvoice)`. -/
def get_coins (payFrom : List UTXO) (account : Account) (config : Config)
    (isInvoice : Bool) : List UTXO :=
  if payFrom.isEmpty then account.spendableCoins config isInvoice else payFrom

/-! ### The send tab state and `read_send_tab` (main_window.py:1622) -/

/-- The send-tab fields `read_send_tab`, `do_update_fee` and `do_send` read or
write: the attached payment request, the message/description line, the payto
editor's parse errors and outputs, the payee script fallback, maximum-send
mode, pinned coins, the amount field, the not-enough-funds flag and the status
bar message. -/
structure SendState where
  paymentRequest : Option PaymentRequest
  messageText : String
  paytoErrors : List (Nat × String)
  paytoOutputs : Bool → List XTxOutput
  payeeScript : Option Nat
  dummyScript : Nat
  isMax : Bool
  payFrom : List UTXO
  amountField : Option Int
  notEnoughFunds : Bool
  statusMessage : String

/-- The output list `read_send_tab` validates: the payment request's outputs
when a request is attached, otherwise `payto_e.get_outputs(is_max)`. -/
def selected_outputs (st : SendState) : List XTxOutput :=
  match st.paymentRequest with
  | some pr => pr.outputs
  | none => st.paytoOutputs st.isMax

/-- `read_send_tab`: fails (returns `none`, after showing an error) when the
attached request has expired, when the payto editor reports parse errors, when
the output list is empty, or when any output value is unresolved (`None`);
otherwise returns the outputs, a `None` fee, the label, and the coins from
`get_coins` (invoice mode exactly when a payment request is attached). -/
def read_send_tab (st : SendState) (account : Account) (config : Config) :
    Option (List XTxOutput × Option Int × String × List UTXO) :=
  match st.paymentRequest with
  | some pr =>
    if pr.hasExpired then none
    else if pr.outputs.isEmpty then none
    else if pr.outputs.any (fun o => o.value.isNone) then none
    else some (pr.outputs, none, st.messageText, get_coins st.payFrom account config true)
  | none =>
    if !st.paytoErrors.isEmpty then none
    else
      let outputs := st.paytoOutputs st.isMax
      if outputs.isEmpty then none
      else if outputs.any (fun o => o.value.isNone) then none
      else some (outputs, none, st.messageText, get_coins st.payFrom account config false)

/-! ### Fee recalculation (`do_update_fee`, main_window.py:1555) -/

/-- The amount `do_update_fee` works with: the `all` sentinel in maximum-send
mode, otherwise the amount field's contents (`None` when the field is empty). -/
def update_fee_amount (st : SendState) : Option XValue :=
  if st.isMax then some XValue.maxAll else st.amountField.map XValue.amount

/-- The outputs `do_update_fee` hands to the builder: the payto editor's
outputs when it has any, otherwise a single output of the working amount to
the payee script (falling back to the account's dummy script template). -/
def update_fee_outputs (st : SendState) (a : XValue) : List XTxOutput :=
  let outputs := st.paytoOutputs st.isMax
  if outputs.isEmpty then [⟨some a, st.payeeScript.getD st.dummyScript⟩] else outputs

/-- `do_update_fee`: with no amount, clear the not-enough-funds flag and the
status bar; otherwise build a candidate transaction through the account
engine (`make`, the result of `make_unsigned_transaction` at the computed
coins and outputs with fee `None`). On success clear the flag and, in
maximum-send mode, rewrite the amount field from the built transaction's
output value; on `NotEnoughFunds` set the flag and return; on any other
failure log and return with the state untouched. -/
def do_update_fee (st : SendState) (account : Account) (config : Config)
    (make : List UTXO → List XTxOutput → Config → Option Int → Except BuildError Tx) :
    SendState :=
  match update_fee_amount st with
  | none => { st with notEnoughFunds := false, statusMessage := "" }
  | some a =>
    match make (get_coins st.payFrom account config false) (update_fee_outputs st a)
        config none with
    | Except.ok tx =>
      let st := { st with notEnoughFunds := false }
      if st.isMax then { st with amountField := some tx.outputValue } else st
    | Except.error BuildError.notEnoughFunds => { st with notEnoughFunds := true }
    | Except.error _ => st

/-! ### Sending (`do_send`, main_window.py:1657) -/

/-- How `do_send` ends before signing: the form failed to read, the build
failed with a message dialog, a preview was shown, or the flow reached the
password prompt carrying the confirmation dialog's message lines. -/
inductive SendOutcome where
  | formInvalid
  | buildFailed (msg : String)
  | previewed (tx : Tx) (desc : String)
  | passwordPrompt (tx : Tx) (msgLines : List String)
deriving DecidableEq, Repr

/-- The confirmation-delay warning line `do_send` appends when the fee is
below half the estimated size. -/
def lowFeeWarning : String :=
  "Warning: The fee is less than 500 sats/kb.  It may take a very long time to confirm."

/-- Python's `round(size * 0.5)` for a byte size: exact halves round to the
nearest even integer (banker's rounding), which only matters for odd sizes. -/
def pyRoundHalf (size : Nat) : Nat :=
  if size % 2 = 0 then size / 2
  else if (size / 2) % 2 = 0 then size / 2 else size / 2 + 1

/-- The concrete integer under an output value, for summing display amounts;
only reached on outputs whose values were validated as resolved. -/
def xvalue_int : Option XValue → Int
  | some (XValue.amount v) => v
  | some XValue.maxAll => 0
  | none => 0

/-- `do_send`: read the form; build through the engine, translating
`NotEnoughFunds`, `ExcessiveFee` and any other exception into message dialogs;
in preview mode show the transaction; otherwise assemble the confirmation
dialog lines — amount, mining fee, the low-fee warning exactly when
`fee < round(estimated_size * 0.5)`, a blank line and the password prompt —
and reach the password dialog. `fmtAmountUnits` stands for the window's
`format_amount_and_units`. -/
def do_send (st : SendState) (account : Account) (config : Config)
    (make : List UTXO → List XTxOutput → Config → Option Int → Except BuildError Tx)
    (fmtAmountUnits : Int → String) (preview : Bool) : SendOutcome :=
  match read_send_tab st account config with
  | none => SendOutcome.formInvalid
  | some (outputs, fee0, txDesc, coins) =>
    match make coins outputs config fee0 with
    | Except.error BuildError.notEnoughFunds => SendOutcome.buildFailed "Insufficient funds"
    | Except.error BuildError.excessiveFee =>
      SendOutcome.buildFailed "Your fee is too high.  Max is 50 sat/byte."
    | Except.error (BuildError.other m) => SendOutcome.buildFailed m
    | Except.ok tx =>
      let amount : Int :=
        if st.isMax then tx.outputValue else (outputs.map (fun o => xvalue_int o.value)).sum
      let fee := tx.fee
      if preview then SendOutcome.previewed tx txDesc
      else
        let msg := ["Amount to be sent: " ++ fmtAmountUnits amount,
                    "Mining fee: " ++ fmtAmountUnits fee]
        let msg := if fee < (pyRoundHalf tx.estimatedSize : Int)
          then msg ++ [lowFeeWarning] else msg
        let msg := msg ++ ["", "Enter your password to proceed"]
        SendOutcome.passwordPrompt tx msg

/-! ### Broadcast (`broadcast_transaction`, main_window.py:1734) -/

/-- `account.set_transaction_state(hash, flags)`. -/
def set_transaction_state (a : Account) (h : Nat) (flags : Nat) : Account :=
  { a with txState := fun k => if k = h then some flags else a.txState k }

/-- What the worker-thread body (`broadcast_tx`) leaves behind: the value it
returns or the exception it raises, the attached payment request afterwards,
and the updated account. -/
structure BroadcastThreadResult where
  result : Except String (Option String)
  paymentRequest : Option PaymentRequest
  account : Account

/-- The worker-thread body of `broadcast_transaction` (`broadcast_tx`): with a
payment request attached, fail by exception if it has expired (clearing the
request first); otherwise submit to the payee endpoint, and on acknowledgement
mark the invoice paid, save, clear the request — returning `None` in every
endpoint case. Without a request, broadcast to the peer network; when the
returned id matches `tx.txid()` and the wallet tracks the transaction, set its
state flags to dispatched-with-byte-data; return the network's id. -/
def broadcast_tx (pr : Option PaymentRequest) (account : Account) (tx : Tx)
    (networkResult : String) : BroadcastThreadResult :=
  match pr with
  | some p =>
    if p.hasExpired then
      { result := Except.error "Payment request has expired",
        paymentRequest := none, account := account }
    else if p.ackStatus then
      let account :=
        { account with
          invoicesPaid := tx.txid :: account.invoicesPaid
          invoicesSaved := true }
      { result := Except.ok none, paymentRequest := none, account := account }
    else
      { result := Except.ok none, paymentRequest := some p, account := account }
  | none =>
    let account :=
      if networkResult = tx.txid ∧ account.haveTransaction tx.hash then
        set_transaction_state account tx.hash
          (TxFlags.StateDispatched ||| TxFlags.HasByteData)
      else account
    { result := Except.ok (some networkResult), paymentRequest := none,
      account := account }

/-- Modelled from the spec: `broadcast_failure_reason` (from
`electrumsv.network`, outside this repository slice) classifies an exception
into a human-readable reason; the model carries the exception's message
through as the reason. -/
def broadcast_failure_reason (msg : String) : String := msg

/-- What the GUI-thread completion callback (`on_done`) does: which error
dialog it opens, which success message it shows, which label it records,
whether it refreshes the invoice list and clears the form. -/
structure BroadcastOutcome where
  errorDialog : Option String
  successMessage : Option String
  labelSet : Option (Nat × String)
  invoiceListUpdated : Bool
  cleared : Bool
deriving DecidableEq, Repr

/-- Python truthiness of the value `broadcast_tx` returned: `None` and the
empty string are falsy. -/
def truthy_id : Option String → Bool
  | none => false
  | some s => !(s == "")

/-- The completion callback of `broadcast_transaction` (`on_done`): an
exception becomes an error dialog carrying the classified reason; a truthy
returned id triggers the label write (only when a description was supplied
and the transaction is complete), the success message, the invoice-list
refresh and the form clear; a falsy result does nothing at all. -/
def broadcast_on_done (r : Except String (Option String)) (tx : Tx)
    (txDesc : Option String) (successText : String) : BroadcastOutcome :=
  match r with
  | Except.error e =>
    { errorDialog := some ("Your transaction was not sent: "
        ++ broadcast_failure_reason e ++ "."),
      successMessage := none, labelSet := none,
      invoiceListUpdated := false, cleared := false }
  | Except.ok txId =>
    if truthy_id txId then
      { errorDialog := none,
        labelSet := if txDesc.isSome ∧ tx.isComplete then
          some (tx.hash, txDesc.getD "") else none,
        successMessage := some (successText ++ "\n" ++ txId.getD ""),
        invoiceListUpdated := true, cleared := true }
    else
      { errorDialog := none, successMessage := none, labelSet := none,
        invoiceListUpdated := false, cleared := false }

/-- The whole `broadcast_transaction` pipeline: run the worker body, then the
completion callback on its result; the default success text is
"Payment sent.". -/
def broadcast_transaction (pr : Option PaymentRequest) (account : Account)
    (tx : Tx) (networkResult : String) (txDesc : Option String)
    (successText : Option String) : BroadcastThreadResult × BroadcastOutcome :=
  let t := broadcast_tx pr account tx networkResult
  (t, broadcast_on_done t.result tx txDesc (successText.getD "Payment sent."))

/-! ### Child pays for parent (`cpfp`, main_window.py:2730) -/

/-- The total size the CPFP dialog displays and prices:
`parent_tx.estimated_size() + new_tx.estimated_size()`. -/
def cpfp_total_size (parentTx newTx : Tx) : Nat :=
  parentTx.estimatedSize + newTx.estimatedSize

/-- The fee the CPFP dialog proposes:
`config.fee_per_kb() * total_size / 1000`. -/
def cpfp_proposed_fee (config : Config) (parentTx newTx : Tx) : ℚ :=
  config.feePerKB * (cpfp_total_size parentTx newTx : ℚ) / 1000

/-- How the CPFP dialog's OK path ends: the excessive-fee error, the engine
declining to build ("CPFP no longer valid"), or a built child transaction. -/
inductive CpfpOutcome where
  | maxFeeExceeded
  | noLongerValid
  | built (childTx : Tx)
deriving DecidableEq, Repr

/-- The OK path of `cpfp` after the user entered `fee`: reject with
"Max fee exceeded" when `fee > new_tx.output_value()`; otherwise call
`account.cpfp(parent_tx, fee)` (`engineCpfp`), reporting "CPFP no longer
valid" when it returns `None` and the built child otherwise. -/
def cpfp_submit (newTx : Tx) (fee : Nat) (engineCpfp : Nat → Option Tx) :
    CpfpOutcome :=
  let maxFee := newTx.outputValue
  if maxFee < (fee : Int) then CpfpOutcome.maxFeeExceeded
  else
    match engineCpfp fee with
    | none => CpfpOutcome.noLongerValid
    | some t => CpfpOutcome.built t

/-! ### Concrete fixtures used to exercise the definitions -/

/-- A concrete spendable coin. -/
def sampleUTXO : UTXO :=
  { keyRef := 1, txHash := 2, outIndex := 0, value := 100000, frozen := false }

/-- A concrete configuration snapshot. -/
def sampleConfig : Config :=
  { feePerKB := 500, maxFeeRate := 20000, excludeFrozen := true }

/-- A concrete signed transaction with fee 200 over 226 estimated bytes. -/
def sampleTx : Tx :=
  { txid := "ab12", hash := 7, isComplete := true, outputValue := 5000,
    fee := 200, estimatedSize := 226, raw := "rawtx" }

/-- A concrete account that tracks every transaction and has no coins, flags,
labels or paid invoices yet. -/
def sampleAccount : Account :=
  { haveTransaction := fun _ => true, txState := fun _ => none,
    txLabels := fun _ => none, invoicesPaid := [], invoicesSaved := false,
    spendableCoins := fun _ _ => [] }

/-- A concrete send-tab state: no payment request, no parse errors, one
resolved 50000-satoshi output, one pinned coin, not in maximum-send mode. -/
def sampleSendState : SendState :=
  { paymentRequest := none, messageText := "a memo", paytoErrors := [],
    paytoOutputs := fun _ => [⟨some (XValue.amount 50000), 3⟩],
    payeeScript := none, dummyScript := 0, isMax := false,
    payFrom := [sampleUTXO], amountField := some 50000,
    notEnoughFunds := false, statusMessage := "" }

/-- `sampleSendState` switched into maximum-send mode. -/
def sampleSendStateMax : SendState := { sampleSendState with isMax := true }

/-- A payment request that is live but whose payee endpoint refuses the
transaction (`accepted = false`). -/
def rejectedPR : PaymentRequest :=
  { hasExpired := false, outputs := [], ackStatus := false,
    ackMsg := "transaction rejected" }

/-- A payment request that is live and whose payee endpoint acknowledges the
transaction (`accepted = true`). -/
def acceptedPR : PaymentRequest :=
  { hasExpired := false, outputs := [], ackStatus := true, ackMsg := "ok" }

/-- A payment request that has already expired. -/
def expiredPR : PaymentRequest :=
  { hasExpired := true, outputs := [], ackStatus := true, ackMsg := "ok" }

/-- An engine oracle whose `account.cpfp` always builds `sampleTx`. -/
def engineCpfpOk : Nat → Option Tx := fun _ => some sampleTx

/-- An engine oracle whose `make_unsigned_transaction` always raises
`NotEnoughFunds`. -/
def makeNEF : List UTXO → List XTxOutput → Config → Option Int → Except BuildError Tx :=
  fun _ _ _ _ => Except.error BuildError.notEnoughFunds

/-- An engine oracle whose `make_unsigned_transaction` always builds
`sampleTx`. -/
def makeOk : List UTXO → List XTxOutput → Config → Option Int → Except BuildError Tx :=
  fun _ _ _ _ => Except.ok sampleTx

/-- A trivial amount formatter rendering every amount as the empty string. -/
def fmtEmpty : Int → String := fun _ => ""

/-! ### C6: coin selection -/

/-- C6: if the user pinned a non-empty coin list, `get_coins` returns exactly
that list whatever the configuration (frozen-exclusion setting) and invoice
flag are; otherwise it returns the account's spendable coins queried with the
given configuration and invoice flag. -/
theorem get_coins_pinned_or_spendable (payFrom : List UTXO) (account : Account)
    (config : Config) (isInvoice : Bool) :
    (payFrom ≠ [] → get_coins payFrom account config isInvoice = payFrom) ∧
    (payFrom = [] → get_coins payFrom account config isInvoice =
      account.spendableCoins config isInvoice) := by
  constructor
  · intro h
    simp [get_coins, h]
  · intro h
    subst h
    simp [get_coins]

/-- Witness for C6: with the pinned list `[sampleUTXO]` the selection returns
exactly that list. -/
theorem get_coins_pinned_or_spendable_witness :
    get_coins [sampleUTXO] sampleAccount sampleConfig true = [sampleUTXO] :=
  (get_coins_pinned_or_spendable [sampleUTXO] sampleAccount sampleConfig true).1
    (by simp)

/-! ### C7: unresolved output values abort the form read -/

/-- C7: whenever any output in the list the send form works from carries an
unresolved (`None`) value, `read_send_tab` fails by returning `none`, so no
transaction is built. -/
theorem read_send_tab_rejects_unset_value (st : SendState) (account : Account)
    (config : Config) (h : ∃ o ∈ selected_outputs st, o.value = none) :
    read_send_tab st account config = none := by
  rcases h with ⟨o, ho, hv⟩
  have hany : ∀ l : List XTxOutput, o ∈ l →
      l.any (fun x => x.value.isNone) = true := by
    intro l hl
    exact List.any_eq_true.mpr ⟨o, hl, by simp [hv]⟩
  have hne : ∀ l : List XTxOutput, o ∈ l → l.isEmpty = false := by
    intro l hl
    cases l with
    | nil => cases hl
    | cons x xs => rfl
  unfold selected_outputs at ho
  unfold read_send_tab
  rcases hpr : st.paymentRequest with _ | pr
  · rw [hpr] at ho
    simp only [hne _ ho, hany _ ho]
    split <;> simp
  · rw [hpr] at ho
    simp only [hne _ ho, hany _ ho]
    split <;> simp

/-- Witness for C7: a send tab whose single payto output has an unset value
reads as `none`. -/
theorem read_send_tab_rejects_unset_value_witness :
    read_send_tab
      { sampleSendState with paytoOutputs := fun _ => [⟨none, 3⟩] }
      sampleAccount sampleConfig = none :=
  read_send_tab_rejects_unset_value _ sampleAccount sampleConfig
    ⟨⟨none, 3⟩, by simp [selected_outputs, sampleSendState], rfl⟩

/-! ### C2: CPFP excessive-fee bound -/

/-- C2: the CPFP submission fails with the excessive-fee error exactly when
the entered fee strictly exceeds the child transaction's output value, and for
every fee at or below that value (the boundary included) it proceeds to build
the child through the engine. -/
theorem cpfp_fee_bound (newTx : Tx) (fee : Nat) (engineCpfp : Nat → Option Tx) :
    (cpfp_submit newTx fee engineCpfp = CpfpOutcome.maxFeeExceeded ↔
      newTx.outputValue < (fee : Int)) ∧
    (∀ t, (fee : Int) ≤ newTx.outputValue → engineCpfp fee = some t →
      cpfp_submit newTx fee engineCpfp = CpfpOutcome.built t) := by
  constructor
  · unfold cpfp_submit
    by_cases h : newTx.outputValue < (fee : Int)
    · simp [h]
    · simp only [h, if_neg h]
      cases engineCpfp fee <;> simp
  · intro t hle heng
    unfold cpfp_submit
    simp [not_lt.mpr hle, heng]

/-- Witness for C2: at the boundary fee equal to the child's output value
(5000), the build proceeds and returns the engine's child transaction. -/
theorem cpfp_fee_bound_witness :
    cpfp_submit sampleTx 5000 engineCpfpOk = CpfpOutcome.built sampleTx :=
  (cpfp_fee_bound sampleTx 5000 engineCpfpOk).2 sampleTx (by decide) rfl

/-! ### C9: the CPFP proposed-fee formula -/

/-- C9: the fee the CPFP dialog proposes equals the configured fee-per-kB rate
times the sum of the parent's and the child's estimated sizes, divided by
1000. -/
theorem cpfp_proposed_fee_eq (config : Config) (parentTx newTx : Tx) :
    cpfp_proposed_fee config parentTx newTx =
      config.feePerKB * ((parentTx.estimatedSize : ℚ)
        + (newTx.estimatedSize : ℚ)) / 1000 := by
  unfold cpfp_proposed_fee cpfp_total_size
  push_cast
  ring

/-! ### C10: frame of the fee recalculation on NotEnoughFunds -/

/-- C10: when the fee recalculation reaches the builder (an amount is in
play, also in maximum-send mode) and the build fails with `NotEnoughFunds`,
the resulting state is the old state with only the not-enough-funds flag set
to true — in particular the amount field is untouched. -/
theorem do_update_fee_notenoughfunds_frame (st : SendState) (account : Account)
    (config : Config)
    (make : List UTXO → List XTxOutput → Config → Option Int → Except BuildError Tx)
    (a : XValue) (ha : update_fee_amount st = some a)
    (hmake : make (get_coins st.payFrom account config false)
      (update_fee_outputs st a) config none =
      Except.error BuildError.notEnoughFunds) :
    do_update_fee st account config make = { st with notEnoughFunds := true } := by
  unfold do_update_fee
  simp only [ha, hmake]

/-- Witness for C10: in maximum-send mode with a builder that reports
`NotEnoughFunds`, only the not-enough-funds flag changes. -/
theorem do_update_fee_notenoughfunds_frame_witness :
    do_update_fee sampleSendStateMax sampleAccount sampleConfig makeNEF =
      { sampleSendStateMax with notEnoughFunds := true } :=
  do_update_fee_notenoughfunds_frame sampleSendStateMax sampleAccount
    sampleConfig makeNEF XValue.maxAll rfl rfl

/-! ### C8: the low-fee confirmation warning -/

/-- C8: when the send flow builds successfully and is not previewing, it
always reaches the password prompt (the send is never aborted by a low fee),
and the confirmation lines contain the confirmation-delay warning exactly when
the fee is strictly below `round(estimated_size * 0.5)`. The formatting
hypotheses record that the window's amount formatter never renders a line that
collides with the warning text. -/
theorem do_send_low_fee_warning (st : SendState) (account : Account)
    (config : Config)
    (make : List UTXO → List XTxOutput → Config → Option Int → Except BuildError Tx)
    (fmtAmountUnits : Int → String) (outputs : List XTxOutput)
    (fee0 : Option Int) (txDesc : String) (coins : List UTXO) (tx : Tx)
    (hread : read_send_tab st account config = some (outputs, fee0, txDesc, coins))
    (hmake : make coins outputs config fee0 = Except.ok tx)
    (hfmt1 : ∀ v, "Amount to be sent: " ++ fmtAmountUnits v ≠ lowFeeWarning)
    (hfmt2 : ∀ v, "Mining fee: " ++ fmtAmountUnits v ≠ lowFeeWarning) :
    ∃ lines, do_send st account config make fmtAmountUnits false =
        SendOutcome.passwordPrompt tx lines ∧
      (lowFeeWarning ∈ lines ↔ tx.fee < (pyRoundHalf tx.estimatedSize : Int)) := by
  unfold do_send
  rw [hread]
  simp only [hmake]
  refine ⟨_, rfl, ?_⟩
  by_cases hc : tx.fee < (pyRoundHalf tx.estimatedSize : Int)
  · simp [hc]
  · simp only [hc, iff_false, if_false]
    intro hmem
    simp only [List.mem_append, List.mem_cons, List.not_mem_nil,
      List.mem_singleton, or_false] at hmem
    rcases hmem with (hmem | hmem) | (hmem | hmem)
    · exact hfmt1 _ hmem.symm
    · exact hfmt2 _ hmem.symm
    · exact absurd hmem (by decide)
    · exact absurd hmem (by decide)

/-- Witness for C8: a concrete successful build with fee 200 on 226 estimated
bytes (above the 113-satoshi threshold) reaches the password prompt with no
warning in its lines. -/
theorem do_send_low_fee_warning_witness :
    ∃ lines, do_send sampleSendState sampleAccount sampleConfig makeOk
        fmtEmpty false = SendOutcome.passwordPrompt sampleTx lines ∧
      (lowFeeWarning ∈ lines ↔
        sampleTx.fee < (pyRoundHalf sampleTx.estimatedSize : Int)) :=
  do_send_low_fee_warning sampleSendState sampleAccount sampleConfig makeOk
    fmtEmpty [⟨some (XValue.amount 50000), 3⟩] none "a memo" [sampleUTXO]
    sampleTx rfl rfl (fun _ => by simp only [fmtEmpty]; decide)
    (fun _ => by simp only [fmtEmpty]; decide)

/-! ### C1: the silently dropped payee-endpoint rejection -/

/-- C1: against the claim, when an attached live payment request's payee
endpoint refuses the signed transaction (`accepted = false`), the worker body
returns `None` without raising, so the completion callback opens no error
dialog and shows no success message — the failure is silent. The claim is
right about the intent (the dead `status`/`msg` locals and the spec's
no-silent-failure policy) and the code drops it. -/
theorem broadcast_rejected_ack_is_silent :
    (broadcast_transaction (some rejectedPR) sampleAccount sampleTx ""
      (some "a memo") none).1.result = Except.ok none ∧
    (broadcast_transaction (some rejectedPR) sampleAccount sampleTx ""
      (some "a memo") none).2.errorDialog = none ∧
    (broadcast_transaction (some rejectedPR) sampleAccount sampleTx ""
      (some "a memo") none).2.successMessage = none :=
  ⟨rfl, rfl, rfl⟩

/-! ### C3: expired payment request at broadcast time -/

/-- C3: if the attached payment request has already expired when the
broadcast worker runs, the operation fails by exception with the
expired-request message — surfaced by the callback as an error dialog with
the classified reason — and the attached request is cleared. -/
theorem broadcast_expired_request_fails_and_clears (pr : PaymentRequest)
    (account : Account) (tx : Tx) (net : String) (txDesc : Option String)
    (successText : Option String) (h : pr.hasExpired = true) :
    (broadcast_transaction (some pr) account tx net txDesc successText).1.result =
      Except.error "Payment request has expired" ∧
    (broadcast_transaction (some pr) account tx net txDesc
      successText).1.paymentRequest = none ∧
    (broadcast_transaction (some pr) account tx net txDesc
      successText).2.errorDialog = some ("Your transaction was not sent: "
        ++ broadcast_failure_reason "Payment request has expired" ++ ".") ∧
    (broadcast_transaction (some pr) account tx net txDesc
      successText).2.successMessage = none := by
  unfold broadcast_transaction broadcast_tx broadcast_on_done
  simp [h]

/-- Witness for C3: broadcasting with the concrete expired request fails with
the expired-request error and clears the request. -/
theorem broadcast_expired_request_fails_and_clears_witness :
    (broadcast_transaction (some expiredPR) sampleAccount sampleTx "ab12"
      (some "a memo") none).1.result =
      Except.error "Payment request has expired" ∧
    (broadcast_transaction (some expiredPR) sampleAccount sampleTx "ab12"
      (some "a memo") none).1.paymentRequest = none ∧
    (broadcast_transaction (some expiredPR) sampleAccount sampleTx "ab12"
      (some "a memo") none).2.errorDialog =
      some ("Your transaction was not sent: "
        ++ broadcast_failure_reason "Payment request has expired" ++ ".") ∧
    (broadcast_transaction (some expiredPR) sampleAccount sampleTx "ab12"
      (some "a memo") none).2.successMessage = none :=
  broadcast_expired_request_fails_and_clears expiredPR sampleAccount sampleTx
    "ab12" (some "a memo") none rfl

/-! ### C5: acceptance sets the dispatched flags, idempotently -/

/-- C5: on a peer-network broadcast whose returned id matches the local
`txid` of a transaction the wallet tracks, the transaction's state flags are
set to exactly `StateDispatched ||| HasByteData`; running the same broadcast
again on the resulting account leaves every transaction's flags unchanged. -/
theorem broadcast_accept_flags_idempotent (account : Account) (tx : Tx)
    (net : String) (h1 : net = tx.txid)
    (h2 : account.haveTransaction tx.hash = true) :
    (broadcast_tx none account tx net).account.txState tx.hash =
      some (TxFlags.StateDispatched ||| TxFlags.HasByteData) ∧
    ∀ k, (broadcast_tx none (broadcast_tx none account tx net).account tx
        net).account.txState k =
      (broadcast_tx none account tx net).account.txState k := by
  unfold broadcast_tx set_transaction_state
  simp only [h1, h2, and_self, if_true, and_true, true_and, eq_self_iff_true,
    if_pos rfl]
  intro k
  by_cases hk : k = tx.hash <;> simp [hk]

/-- Witness for C5: the concrete accepted broadcast sets the flags of
transaction hash 7 and a second identical broadcast leaves the flag table
pointwise unchanged. -/
theorem broadcast_accept_flags_idempotent_witness :
    (broadcast_tx none sampleAccount sampleTx "ab12").account.txState
        sampleTx.hash =
      some (TxFlags.StateDispatched ||| TxFlags.HasByteData) ∧
    ∀ k, (broadcast_tx none (broadcast_tx none sampleAccount sampleTx
        "ab12").account sampleTx "ab12").account.txState k =
      (broadcast_tx none sampleAccount sampleTx "ab12").account.txState k :=
  broadcast_accept_flags_idempotent sampleAccount sampleTx "ab12" rfl rfl

/-! ### C4: the post-broadcast label write -/

/-- Counterexample for C4: an acceptance through the payment-request payee
endpoint, with a description supplied and a fully signed transaction, records
no label — the worker returned `None`, so the callback never reaches the
label step, contradicting the claim's "including acceptance via the
payment-request payee endpoint". -/
theorem broadcast_pr_accept_records_no_label :
    acceptedPR.ackStatus = true ∧ sampleTx.isComplete = true ∧
    (broadcast_transaction (some acceptedPR) sampleAccount sampleTx "ab12"
      (some "a memo") none).2.labelSet = none :=
  ⟨rfl, rfl, rfl⟩

/-- C4 (amended): the label is recorded against the transaction's hash
exactly on the peer-network path — whenever the callback receives a non-empty
transaction id, a description was supplied and the transaction is complete —
while every broadcast through a payment-request payee endpoint hands the
callback no id and records no label. -/
theorem broadcast_label_on_network_accept (account : Account) (tx : Tx)
    (net : String) (txDesc : Option String) (successText : Option String) :
    (∀ d : String, net ≠ "" → txDesc = some d → tx.isComplete = true →
      (broadcast_transaction none account tx net txDesc
        successText).2.labelSet = some (tx.hash, d)) ∧
    (∀ p : PaymentRequest,
      (broadcast_transaction (some p) account tx net txDesc
        successText).2.labelSet = none) := by
  constructor
  · intro d hnet hdesc hcomp
    unfold broadcast_transaction broadcast_tx broadcast_on_done truthy_id
    simp [hdesc, hcomp, hnet]
  · intro p
    unfold broadcast_transaction broadcast_tx broadcast_on_done truthy_id
    by_cases he : p.hasExpired <;> by_cases ha : p.ackStatus <;> simp [he, ha]

/-- Witness for C4's amended theorem: the concrete accepted peer-network
broadcast with a description and a complete transaction records the label
against hash 7. -/
theorem broadcast_label_on_network_accept_witness :
    (broadcast_transaction none sampleAccount sampleTx "ab12" (some "a memo")
      none).2.labelSet = some (sampleTx.hash, "a memo") :=
  (broadcast_label_on_network_accept sampleAccount sampleTx "ab12"
    (some "a memo") none).1 "a memo" (by decide) rfl rfl

end ElectrumBSV
